import Mathlib

/-!
Verification development for the receipt/print pipeline of the shop-manager
repository (`src/utils/posPrint.ts`, the five-strategy variant).

Embedding conventions:
* JavaScript strings are modelled as Lean `String` (receipts here only use
  basic-multilingual-plane characters, for which JS UTF-16 code-unit
  indexing and Lean character indexing coincide).
* Monetary amounts (`price`, `total`, `subtotal`, `tax`) are modelled as an
  exact integer number of hundredths (`Int`); `Number.prototype.toFixed(2)`
  is modelled as exact two-decimal rendering, which agrees with JS on the
  amounts that arise here.  `quantity` and `taxPercentage` are integers,
  rendered as JS renders integral numbers.
* The timestamp `new Date().toLocaleString()` is an injected clock
  parameter (`now : String`), as the specification directs for testing.
-/

namespace POSPrinter

/-- JS `s.substring(0, n)`: the first `n` characters of `s`. -/
def strTake (n : Nat) (s : String) : String :=
  String.mk (s.data.take n)

/-- JS `s.padEnd(w)` followed by `.substring(0, w)`: left-aligned fit into
a column of exactly `w` characters. -/
def strFitEnd (w : Nat) (s : String) : String :=
  String.mk ((s.data ++ List.replicate (w - s.data.length) ' ').take w)

/-- JS `s.padStart(w)` followed by `.substring(0, w)`: right-aligned fit
into a column of exactly `w` characters. -/
def strFitStart (w : Nat) (s : String) : String :=
  String.mk ((List.replicate (w - s.data.length) ' ' ++ s.data).take w)

/-- JS `'-'.repeat(48)`, the separator line. -/
def dashes48 : String := String.mk (List.replicate 48 '-')

/-- Concatenation of a list of strings, in order (the `forEach` item loop). -/
def strJoin : List String → String
  | [] => ""
  | s :: rest => s ++ strJoin rest

/-- The character for a decimal digit `n % 10`. -/
def digitChar (n : Nat) : Char := Char.ofNat (48 + n % 10)

/-- Decimal digits of `n`, most significant first; fuel-driven so that the
kernel can evaluate it (`fuel ≥ n` suffices). -/
def natDigitsAux : Nat → Nat → List Char
  | 0, _ => []
  | fuel + 1, n => if n = 0 then [] else natDigitsAux fuel (n / 10) ++ [digitChar (n % 10)]

/-- Decimal rendering of a natural number, as JS renders integral numbers. -/
def natRepr (n : Nat) : String :=
  if n = 0 then "0" else String.mk (natDigitsAux n n)

/-- Decimal rendering of an integer, as JS `Number.prototype.toString`. -/
def intRepr (i : Int) : String :=
  if i < 0 then "-" ++ natRepr i.natAbs else natRepr i.natAbs

/-- JS `x.toFixed(2)` for an amount given in exact hundredths `m`. -/
def toFixed2 (m : Int) : String :=
  (if m < 0 then "-" else "")
    ++ natRepr (m.natAbs / 100) ++ "."
    ++ (if m.natAbs % 100 < 10 then "0" else "") ++ natRepr (m.natAbs % 100)

/-- `PrintItem` of `posPrint.ts` (amounts in hundredths). -/
structure PrintItem where
  name : String
  quantity : Int
  price : Int
  total : Int
deriving DecidableEq, Repr

/-- `PrintData` of `posPrint.ts` (amounts in hundredths).  The optional
customer fields are `Option String`; JS truthiness makes the empty string
behave like an absent field. -/
structure PrintData where
  storeName : String
  customerName : Option String := none
  customerPhone : Option String := none
  items : List PrintItem
  subtotal : Int
  tax : Int
  taxPercentage : Int
  total : Int
  currency : String
  paymentMethod : String
deriving DecidableEq, Repr

-- ESC/POS command constants of the `POSPrinter` class.
def ESC : String := "\x1B"
def GS : String := "\x1D"
def LF : String := "\x0A"
def INIT : String := ESC ++ "@"
def ALIGN_CENTER : String := ESC ++ "a" ++ "\x01"
def ALIGN_LEFT : String := ESC ++ "a" ++ "\x00"
def ALIGN_RIGHT : String := ESC ++ "a" ++ "\x02"
def BOLD_ON : String := ESC ++ "E" ++ "\x01"
def BOLD_OFF : String := ESC ++ "E" ++ "\x00"
def SIZE_NORMAL : String := GS ++ "!" ++ "\x00"
def SIZE_DOUBLE : String := GS ++ "!" ++ "\x11"
def CUT_PAPER : String := GS ++ "V" ++ "\x41" ++ "\x03"
def LINE_FEED : String := LF

/-- `padLine(col1, col2, col3, col4)`: the fixed four-column row layout
(16 + 4 + 10 + 10 characters). -/
def padLine (col1 col2 col3 col4 : String) : String :=
  strFitEnd 16 col1 ++ strFitStart 4 col2 ++ strFitStart 10 col3 ++ strFitStart 10 col4

/-- One rendered item row plus its line feed (the body of the `forEach`
loop in `formatReceipt`): the name is first truncated to 20 characters,
the amounts are prefixed with the currency symbol. -/
def itemRow (currency : String) (item : PrintItem) : String :=
  padLine (strTake 20 item.name) (intRepr item.quantity)
      (currency ++ toFixed2 item.price) (currency ++ toFixed2 item.total)
    ++ LINE_FEED

/-- An optional labelled line; emitted only when the field is present and
non-empty (JS truthiness). -/
def optField (label : String) : Option String → String
  | none => ""
  | some v => if v = "" then "" else label ++ v ++ LINE_FEED

/-- Everything `formatReceipt` emits before the conditional tax line. -/
def receiptBeforeTax (now : String) (d : PrintData) : String :=
  INIT
    ++ ESC ++ "@"
    ++ "\x0A"
    ++ ALIGN_CENTER ++ SIZE_DOUBLE ++ BOLD_ON
    ++ d.storeName ++ LINE_FEED
    ++ BOLD_OFF ++ SIZE_NORMAL ++ LINE_FEED
    ++ ALIGN_LEFT ++ dashes48 ++ LINE_FEED
    ++ optField "Customer: " d.customerName
    ++ optField "Phone: " d.customerPhone
    ++ "Date: " ++ now ++ LINE_FEED
    ++ "Payment: " ++ d.paymentMethod ++ LINE_FEED
    ++ dashes48 ++ LINE_FEED
    ++ padLine "Item" "Qty" "Price" "Total" ++ LINE_FEED
    ++ dashes48 ++ LINE_FEED
    ++ strJoin (d.items.map (itemRow d.currency))
    ++ dashes48 ++ LINE_FEED
    ++ ALIGN_RIGHT
    ++ "Subtotal: " ++ d.currency ++ toFixed2 d.subtotal ++ LINE_FEED

/-- The tax line emitted when `taxPercentage > 0`. -/
def taxLine (d : PrintData) : String :=
  "Tax (" ++ intRepr d.taxPercentage ++ "%): " ++ d.currency ++ toFixed2 d.tax ++ LINE_FEED

/-- Everything `formatReceipt` emits after the conditional tax line. -/
def receiptAfterTax (d : PrintData) : String :=
  BOLD_ON
    ++ "TOTAL: " ++ d.currency ++ toFixed2 d.total ++ LINE_FEED
    ++ BOLD_OFF
    ++ ALIGN_CENTER ++ LINE_FEED
    ++ "Thank you for your business!" ++ LINE_FEED
    ++ LINE_FEED ++ LINE_FEED
    ++ CUT_PAPER

/-- `POSPrinter.formatReceipt` with the timestamp injected as `now`. -/
def formatReceipt (now : String) (d : PrintData) : String :=
  receiptBeforeTax now d
    ++ (if 0 < d.taxPercentage then taxLine d else "")
    ++ receiptAfterTax d

/-- The transport strategies of the five-strategy `print` pipeline, in
source order: the four byte-delivering methods tried by
`printViaPOSCommand`, then the serial strategy, then the browser fallback. -/
inductive Strategy where
  | usb
  | android
  | windows
  | socket
  | serial
  | browser
deriving DecidableEq, Repr

/-- The environment a `print` call runs against: which transport attempts
would succeed, whether the Web Serial API exists (`'serial' in navigator`),
whether a serial connection can be opened (port granted and some candidate
baud rate opens), whether the chunked serial write completes, and whether
`window.open` can create a print window for the browser fallback. -/
structure PrintEnv where
  usbOk : Bool
  androidOk : Bool
  windowsOk : Bool
  socketOk : Bool
  serialAvailable : Bool
  serialConnectOk : Bool
  serialWriteOk : Bool
  browserWindowOk : Bool
deriving DecidableEq, Repr

/-- Whether a strategy succeeds in the given environment.  The browser
fallback is counted as succeeding only when a print window can be created,
which is the specification's notion of its only failure mode. -/
def strategySucceeds (env : PrintEnv) : Strategy → Bool
  | .usb => env.usbOk
  | .android => env.androidOk
  | .windows => env.windowsOk
  | .socket => env.socketOk
  | .serial => env.serialAvailable && env.serialConnectOk && env.serialWriteOk
  | .browser => env.browserWindowOk

/-- Every strategy, the browser fallback included, fails. -/
def allStrategiesFail (env : PrintEnv) : Bool :=
  !env.usbOk && !env.androidOk && !env.windowsOk && !env.socketOk
    && !(env.serialAvailable && env.serialConnectOk && env.serialWriteOk)
    && !env.browserWindowOk

/-- Some method of the `printViaPOSCommand` chain succeeds. -/
def deviceChainSucceeds (env : PrintEnv) : Bool :=
  env.usbOk || env.androidOk || env.windowsOk || env.socketOk

/-- The `for (const method of methods)` loop of `printViaPOSCommand`:
invoke each method in order, stopping at the first success; returns the
invoked strategies in order and whether one succeeded. -/
def tryMethods : List (Strategy × Bool) → List Strategy × Bool
  | [] => ([], false)
  | (s, ok) :: rest =>
      if ok then ([s], true)
      else
        let r := tryMethods rest
        (s :: r.1, r.2)

/-- Observable outcome of one `POSPrinter.print` call: the strategies
invoked in order, how many times `formatReceipt` ran, the payload handed to
each invoked byte-delivering method of `printViaPOSCommand`, the payload
the serial strategy wrote (when it formatted one), and the settled result
of the returned promise. -/
structure PrintRun where
  trace : List Strategy
  formatCalls : Nat
  devicePayloads : List String
  serialPayload : Option String
  result : Except String Unit
deriving Repr

/-- `POSPrinter.print`: try `printViaPOSCommand` (which formats once and
tries USB, Android bridge, Windows bridge, raw socket in order on that one
payload); on failure try the serial strategy when `'serial' in navigator`
(it formats again after the connection opens); on any further failure call
`printViaBrowser`, which returns without throwing even when no print
window can be created.  `clocks k` is the timestamp observed by the
`k`-th `formatReceipt` call. -/
def printRun (clocks : Nat → String) (d : PrintData) (env : PrintEnv) : PrintRun :=
  let payload0 := formatReceipt (clocks 0) d
  let r0 := tryMethods
    [(.usb, env.usbOk), (.android, env.androidOk), (.windows, env.windowsOk), (.socket, env.socketOk)]
  let devicePayloads := r0.1.map fun _ => payload0
  if r0.2 then
    { trace := r0.1, formatCalls := 1, devicePayloads := devicePayloads
      serialPayload := none, result := .ok () }
  else if env.serialAvailable then
    if env.serialConnectOk then
      let payload1 := formatReceipt (clocks 1) d
      if env.serialWriteOk then
        { trace := r0.1 ++ [.serial], formatCalls := 2, devicePayloads := devicePayloads
          serialPayload := some payload1, result := .ok () }
      else
        { trace := r0.1 ++ [.serial, .browser], formatCalls := 2, devicePayloads := devicePayloads
          serialPayload := some payload1, result := .ok () }
    else
      { trace := r0.1 ++ [.serial, .browser], formatCalls := 1, devicePayloads := devicePayloads
        serialPayload := none, result := .ok () }
  else
    { trace := r0.1 ++ [.browser], formatCalls := 1, devicePayloads := devicePayloads
      serialPayload := none, result := .ok () }

/-- The chunk split of `printViaSerial`: successive slices of 64 bytes,
`dataArray.slice(i, i + chunkSize)`.  Fuel-driven so the kernel can
evaluate it; `fuel ≥ l.length` suffices. -/
def chunksAux : Nat → List Nat → List (List Nat)
  | 0, _ => []
  | _, [] => []
  | fuel + 1, b :: rest => ((b :: rest).take 64) :: chunksAux fuel ((b :: rest).drop 64)

/-- The list of 64-byte chunks the serial strategy writes, in order. -/
def chunks64 (l : List Nat) : List (List Nat) := chunksAux l.length l

/-- The chunk write loop of `printViaSerial` against a writer that accepts
or rejects each `writer.write(chunk)`: returns the chunks actually
written, in order, and whether the loop completed.  The first rejected
write aborts the loop (the strategy throws; no resume). -/
def writeChunks (ok : Nat → Bool) : List (List Nat) → Nat → List (List Nat) × Bool
  | [], _ => ([], true)
  | c :: cs, i =>
      if ok i then
        let r := writeChunks ok cs (i + 1)
        (c :: r.1, r.2)
      else ([], false)

/-- No input string handed to the formatter contains the character `x`
(which is a character of the substring `Tax`): the injected date, the
store name, the optional customer fields, the payment method, the
currency symbol and every item name. -/
def xFreeStr (s : String) : Bool := s.data.all fun c => c != 'x'

/-- `xFreeStr` lifted to an optional field. -/
def xFreeOpt : Option String → Bool
  | none => true
  | some s => xFreeStr s

/-- All string fields of a receipt, and the injected date, avoid `x`. -/
def xFreeFields (now : String) (d : PrintData) : Bool :=
  xFreeStr now && xFreeStr d.storeName && xFreeOpt d.customerName && xFreeOpt d.customerPhone
    && xFreeStr d.paymentMethod && xFreeStr d.currency
    && d.items.all fun it => xFreeStr it.name

end POSPrinter

open POSPrinter

/-- The receipt of the specification's concrete scenario (amounts in
hundredths: 45.00 → 4500, 16.20 → 1620, 106.20 → 10620). -/
def dKrushnkamal : PrintData :=
  { storeName := "Krushnkamal Masale"
    items := [{ name := "Turmeric Powder", quantity := 2, price := 4500, total := 9000 }]
    subtotal := 9000
    tax := 1620
    taxPercentage := 18
    total := 10620
    currency := "₹"
    paymentMethod := "cash" }

/-- A concrete injected timestamp. -/
def now0 : String := "11/10/2025, 10:00:00 AM"

/-- A 30-character item name. -/
def name30 : String := "ABCDEFGHIJKLMNOPQRSTUVWXYZabcd"

/-- A receipt whose single item has the 30-character name `name30`. -/
def dName30 : PrintData :=
  { storeName := "Shop"
    items := [{ name := name30, quantity := 1, price := 100, total := 100 }]
    subtotal := 100
    tax := 0
    taxPercentage := 0
    total := 100
    currency := "$"
    paymentMethod := "cash" }

/-- A zero-tax receipt whose item name happens to contain `Tax`. -/
def dTaxi : PrintData :=
  { storeName := "Shop"
    items := [{ name := "Taxi Ride", quantity := 1, price := 100, total := 100 }]
    subtotal := 100
    tax := 0
    taxPercentage := 0
    total := 100
    currency := "$"
    paymentMethod := "cash" }

/-- A zero-tax receipt all of whose string fields avoid `x`. -/
def dTaxFree : PrintData :=
  { storeName := "Shop"
    items := [{ name := "Rice", quantity := 1, price := 100, total := 100 }]
    subtotal := 100
    tax := 0
    taxPercentage := 0
    total := 100
    currency := "$"
    paymentMethod := "cash" }

/-- The environment in which every strategy fails, the browser fallback
included: no device method works, the serial chain cannot run, and no
print window can be created. -/
def envAllFail : PrintEnv :=
  { usbOk := false, androidOk := false, windowsOk := false, socketOk := false
    serialAvailable := false, serialConnectOk := false, serialWriteOk := false
    browserWindowOk := false }

/-- The environment in which the four device methods fail and the serial
strategy connects and writes successfully. -/
def envSerialPath : PrintEnv :=
  { usbOk := false, androidOk := false, windowsOk := false, socketOk := false
    serialAvailable := true, serialConnectOk := true, serialWriteOk := true
    browserWindowOk := true }

/-- A clock that advances between the first and the second formatter call. -/
def clocksD : Nat → String :=
  fun k => if k = 0 then "11/10/2025, 10:00:00 AM" else "11/10/2025, 10:00:05 AM"

/-- A 70-byte payload: its chunk split is one full 64-byte chunk followed
by one 6-byte chunk. -/
def p70 : List Nat := List.replicate 70 7


/-! Column-layout lemmas for `padLine`. -/

theorem strFitStart_of_le (w : Nat) (s : String) (h : w ≤ s.data.length) :
    strFitStart w s = strTake w s := by
  have hz : w - s.data.length = 0 := Nat.sub_eq_zero_of_le h
  simp only [strFitStart, strTake, hz, List.replicate_zero, List.nil_append]

theorem strFitEnd_strTake_of_le (nm : String) (h : 16 ≤ nm.data.length) :
    strFitEnd 16 (strTake 20 nm) = strTake 16 nm := by
  have hmin : (List.take 20 nm.data).length = min 20 nm.data.length := by simp
  have hz : 16 - (List.take 20 nm.data).length = 0 := by omega
  show String.mk ((List.take 20 nm.data
      ++ List.replicate (16 - (List.take 20 nm.data).length) ' ').take 16)
    = String.mk (List.take 16 nm.data)
  rw [hz, List.replicate_zero, List.append_nil, List.take_take]
  norm_num

/-- C6: for any four column strings, the row built by `padLine` has length
exactly 16 + 4 + 10 + 10 = 40 characters — each column is padded or
truncated to its fixed width regardless of the input lengths. -/
theorem padLine_row_width (c1 c2 c3 c4 : String) : (padLine c1 c2 c3 c4).length = 40 := by
  show (padLine c1 c2 c3 c4).data.length = 40
  simp only [padLine, String.data_append, strFitEnd, strFitStart, List.length_append,
    List.length_take, List.length_replicate]
  omega

/-- C10: `padLine` keeps only the leading characters of an overflowing
column — a quantity string longer than 4 characters is cut to its first 4,
and currency-prefixed price and total strings longer than 10 characters
are cut to their first 10, dropping the trailing characters of the amount. -/
theorem padLine_overflow_truncates (c1 q p t : String)
    (hq : 4 < q.data.length) (hp : 10 < p.data.length) (ht : 10 < t.data.length) :
    padLine c1 q p t = strFitEnd 16 c1 ++ strTake 4 q ++ strTake 10 p ++ strTake 10 t := by
  rw [padLine, strFitStart_of_le 4 q (by omega), strFitStart_of_le 10 p (by omega),
    strFitStart_of_le 10 t (by omega)]

theorem padLine_overflow_truncates_witness :
    (4 < ("123456" : String).data.length ∧ 10 < ("$1234567.89" : String).data.length
        ∧ 10 < ("$9876543.21" : String).data.length)
      ∧ padLine "Item" "123456" "$1234567.89" "$9876543.21"
          = strFitEnd 16 "Item" ++ strTake 4 "123456" ++ strTake 10 "$1234567.89"
              ++ strTake 10 "$9876543.21" :=
  ⟨⟨by decide, by decide, by decide⟩,
    padLine_overflow_truncates "Item" "123456" "$1234567.89" "$9876543.21"
      (by decide) (by decide) (by decide)⟩

/-- C2 (amended): for an item name of at least 16 characters, the rendered
row starts with exactly the first 16 characters of the name — the name is
truncated to 20 characters before column-fitting, and the 16-wide name
column then truncates it further to 16 characters. -/
theorem padLine_name_col_first16 (nm q p t : String) (h : 16 ≤ nm.data.length) :
    ∃ rest, padLine (strTake 20 nm) q p t = strTake 16 nm ++ rest := by
  refine ⟨strFitStart 4 q ++ strFitStart 10 p ++ strFitStart 10 t, ?_⟩
  simp [padLine, strFitEnd_strTake_of_le nm h, String.append_assoc]

theorem padLine_name_col_first16_witness :
    16 ≤ name30.data.length
      ∧ ∃ rest, padLine (strTake 20 name30) "1" "$1.00" "$1.00" = strTake 16 name30 ++ rest :=
  ⟨by decide, padLine_name_col_first16 name30 "1" "$1.00" "$1.00" (by decide)⟩

set_option maxRecDepth 100000 in
/-- C2 (counterexample): for the 30-character item name `name30`, the
formatted receipt does not contain the first 20 characters of the name
anywhere — the name column holds only the first 16 characters. -/
theorem name30_first20_not_rendered :
    name30.data.length = 30
      ∧ ¬ (strTake 20 name30).data <:+: (formatReceipt now0 dName30).data
      ∧ (strTake 16 name30).data <:+: (formatReceipt now0 dName30).data :=
  ⟨by decide, by decide, by decide⟩

set_option maxRecDepth 100000 in
/-- C7: on the specification's concrete scenario receipt, the formatted
output contains the item row for "Turmeric Powder" with quantity "2", the
line "Tax (18%): ₹16.20", and the total line "TOTAL: ₹106.20". -/
theorem formatReceipt_scenario_krushnkamal :
    (padLine "Turmeric Powder" "2" "₹45.00" "₹90.00").data
        <:+: (formatReceipt now0 dKrushnkamal).data
      ∧ "Tax (18%): ₹16.20".data <:+: (formatReceipt now0 dKrushnkamal).data
      ∧ "TOTAL: ₹106.20".data <:+: (formatReceipt now0 dKrushnkamal).data :=
  ⟨by decide, by decide, by decide⟩

/-- C9: with the timestamp injected as a clock parameter, `formatReceipt`
is a deterministic pure transform — equal clock values and equal receipts
yield byte-identical output.  (The embedding is a pure function of its
arguments; the source reads its input only through non-mutating string
operations, so the input receipt is left unchanged.) -/
theorem formatReceipt_deterministic (now₁ now₂ : String) (d₁ d₂ : PrintData)
    (hnow : now₁ = now₂) (hd : d₁ = d₂) :
    formatReceipt now₁ d₁ = formatReceipt now₂ d₂ := by
  rw [hnow, hd]

theorem formatReceipt_deterministic_witness :
    now0 = now0 ∧ dKrushnkamal = dKrushnkamal
      ∧ formatReceipt now0 dKrushnkamal = formatReceipt now0 dKrushnkamal :=
  ⟨rfl, rfl, formatReceipt_deterministic now0 now0 dKrushnkamal dKrushnkamal rfl rfl⟩

/-! Orchestrator theorems. -/

/-- C1 (counterexample): in the environment where every strategy fails —
all four device methods, the serial chain, and the browser fallback
(no print window can be created) — `print` still resolves successfully.
`printViaBrowser` returns without throwing when `window.open` yields no
window, so no `AllStrategiesFailed` error ever reaches the caller. -/
theorem print_all_fail_still_resolves :
    allStrategiesFail envAllFail = true
      ∧ (printRun (fun _ => now0) dKrushnkamal envAllFail).result = Except.ok () :=
  ⟨rfl, rfl⟩

/-- C1 (amended): `print` never rejects — for every environment, clock and
receipt, the returned promise settles successfully, even when every
strategy including the browser fallback fails. -/
theorem print_never_rejects (clocks : Nat → String) (d : PrintData) (env : PrintEnv) :
    (printRun clocks d env).result = Except.ok () := by
  rcases env with ⟨u, a, w, s, sa, sc, sw, b⟩
  cases u <;> cases a <;> cases w <;> cases s <;> cases sa <;> cases sc <;> cases sw <;> rfl

/-- C4: `print` invokes the strategies in the fixed priority order — USB,
Android bridge, Windows bridge, raw socket, serial, browser fallback last
(the trace is always an order-preserving selection from that list) — and
every strategy invoked before the last one of the trace failed, so once a
strategy succeeds no lower-priority strategy is ever invoked. -/
theorem print_priority_order (clocks : Nat → String) (d : PrintData) (env : PrintEnv) :
    List.Sublist (printRun clocks d env).trace
        [Strategy.usb, Strategy.android, Strategy.windows, Strategy.socket,
          Strategy.serial, Strategy.browser]
      ∧ ((printRun clocks d env).trace.dropLast.all fun s => !strategySucceeds env s) = true := by
  rcases env with ⟨u, a, w, s, sa, sc, sw, b⟩
  cases u <;> cases a <;> cases w <;> cases s <;> cases sa <;> cases sc <;> cases sw <;> cases b <;>
    exact ⟨of_decide_eq_true rfl, rfl⟩

/-- C3 (counterexample): when the four device methods fail and the serial
strategy connects, one `print` call runs `formatReceipt` twice — once in
`printViaPOSCommand` and once in `printViaSerial` — and with a clock that
advanced in between, the payload the serial strategy writes differs from
the payload the device methods received. -/
theorem print_formats_twice_on_serial_path :
    (printRun clocksD dKrushnkamal envSerialPath).formatCalls = 2
      ∧ (printRun clocksD dKrushnkamal envSerialPath).serialPayload
          ≠ some (formatReceipt (clocksD 0) dKrushnkamal) := by
  refine ⟨rfl, ?_⟩
  decide

/-- C3 (amended): `printViaPOSCommand` formats the receipt once and hands
that identical payload to every device method it invokes (USB, Android
bridge, Windows bridge, raw socket); the serial strategy, when it is
reached and its connection opens, calls the formatter a second time and
writes that second payload, so `formatReceipt` runs twice exactly when all
four device methods fail and the serial connection opens, and once
otherwise. -/
theorem print_payloads_per_strategy (clocks : Nat → String) (d : PrintData) (env : PrintEnv) :
    ((printRun clocks d env).devicePayloads.all fun p => p == formatReceipt (clocks 0) d) = true
      ∧ (printRun clocks d env).formatCalls
          = (if !deviceChainSucceeds env && env.serialAvailable && env.serialConnectOk
              then 2 else 1)
      ∧ (printRun clocks d env).serialPayload
          = (if !deviceChainSucceeds env && env.serialAvailable && env.serialConnectOk
              then some (formatReceipt (clocks 1) d) else none) := by
  rcases env with ⟨u, a, w, s, sa, sc, sw, b⟩
  cases u <;> cases a <;> cases w <;> cases s <;> cases sa <;> cases sc <;> cases sw <;>
    exact ⟨by simp [printRun, tryMethods], rfl, rfl⟩

/-! Serial chunking lemmas. -/

theorem chunksAux_flatten (fuel : Nat) :
    ∀ l : List Nat, l.length ≤ fuel → (chunksAux fuel l).flatten = l := by
  induction fuel with
  | zero =>
      intro l h
      cases l with
      | nil => rfl
      | cons b rest => simp at h
  | succ f ih =>
      intro l h
      cases l with
      | nil => rfl
      | cons b rest =>
          have hlen : ((b :: rest).drop 64).length ≤ f := by
            rw [List.length_drop]
            simp only [List.length_cons] at h ⊢
            omega
          simp only [chunksAux, List.flatten_cons]
          rw [ih _ hlen]
          exact List.take_append_drop 64 (b :: rest)

theorem chunksAux_chunk_bounds (fuel : Nat) :
    ∀ l : List Nat, ∀ c ∈ chunksAux fuel l, c ≠ [] ∧ c.length ≤ 64 := by
  induction fuel with
  | zero => intro l c hc; simp [chunksAux] at hc
  | succ f ih =>
      intro l c hc
      cases l with
      | nil => simp [chunksAux] at hc
      | cons b rest =>
          simp only [chunksAux, List.mem_cons] at hc
          rcases hc with hc | hc
          · subst hc
            refine ⟨by simp, by simp⟩
          · exact ih _ c hc

theorem chunksAux_dropLast_full (fuel : Nat) :
    ∀ l : List Nat, l.length ≤ fuel → ∀ c ∈ (chunksAux fuel l).dropLast, c.length = 64 := by
  induction fuel with
  | zero => intro l h c hc; simp [chunksAux] at hc
  | succ f ih =>
      intro l h c hc
      cases l with
      | nil => simp [chunksAux] at hc
      | cons b rest =>
          simp only [chunksAux] at hc
          by_cases hrec : chunksAux f ((b :: rest).drop 64) = []
          · rw [hrec] at hc
            simp at hc
          · have hlong : 64 < (b :: rest).length := by
              by_contra hle
              push_neg at hle
              have hnil : (b :: rest).drop 64 = [] := List.drop_eq_nil_of_le hle
              rw [hnil] at hrec
              exact hrec (by cases f <;> rfl)
            rw [List.dropLast_cons_of_ne_nil hrec] at hc
            rcases List.mem_cons.mp hc with hc | hc
            · subst hc
              rw [List.length_take]
              simp only [List.length_cons] at hlong ⊢
              omega
            · have hlen : ((b :: rest).drop 64).length ≤ f := by
                rw [List.length_drop]
                simp only [List.length_cons] at h ⊢
                omega
              exact ih _ hlen c hc

theorem writeChunks_written_ordered (ok : Nat → Bool) :
    ∀ (cs : List (List Nat)) (i : Nat), (writeChunks ok cs i).1 <+: cs := by
  intro cs
  induction cs with
  | nil => intro i; simp [writeChunks]
  | cons c rest ih =>
      intro i
      simp only [writeChunks]
      split
      · obtain ⟨t, ht⟩ := ih (i + 1)
        exact ⟨t, by simpa using ht⟩
      · exact ⟨c :: rest, rfl⟩

theorem writeChunks_all_of_complete (ok : Nat → Bool) :
    ∀ (cs : List (List Nat)) (i : Nat),
      (writeChunks ok cs i).2 = true → (writeChunks ok cs i).1 = cs := by
  intro cs
  induction cs with
  | nil => intro i _; rfl
  | cons c rest ih =>
      intro i h
      simp only [writeChunks] at h ⊢
      split at h
      · rename_i hok
        simp only [hok, if_pos]
        simp [ih (i + 1) h]
      · simp at h

theorem flatten_of_chunk_list_ordered {l₁ l₂ : List (List Nat)} (h : l₁ <+: l₂) :
    l₁.flatten <+: l₂.flatten := by
  obtain ⟨t, rfl⟩ := h
  exact ⟨t.flatten, (List.flatten_append l₁ t).symm⟩

/-- C8: the serial strategy's chunk split and write loop. The chunks
concatenate, in write order, back to the original payload; every chunk
except possibly the last has exactly 64 bytes (and none is empty or
larger); the chunks actually written always form an order-preserving
front segment of the chunk list (no chunk reordered or skipped, and a
rejected write stops everything after it), so the written bytes are a
front segment of the payload; and when the loop completes, the written
bytes are the whole payload. -/
theorem serial_chunk_write (p : List Nat) (ok : Nat → Bool) :
    (chunks64 p).flatten = p
      ∧ (((chunks64 p).dropLast.all fun c => c.length == 64)) = true
      ∧ (((chunks64 p).all fun c => !c.isEmpty && decide (c.length ≤ 64))) = true
      ∧ (writeChunks ok (chunks64 p) 0).1 <+: chunks64 p
      ∧ (writeChunks ok (chunks64 p) 0).1.flatten <+: p
      ∧ ((writeChunks ok (chunks64 p) 0).2 = true
          → (writeChunks ok (chunks64 p) 0).1.flatten = p) := by
  have hjoin : (chunks64 p).flatten = p := chunksAux_flatten p.length p le_rfl
  refine ⟨hjoin, ?_, ?_, writeChunks_written_ordered ok (chunks64 p) 0, ?_, ?_⟩
  · rw [List.all_eq_true]
    intro c hc
    have hfull := chunksAux_dropLast_full p.length p le_rfl c hc
    simp [hfull]
  · rw [List.all_eq_true]
    intro c hc
    have hb := chunksAux_chunk_bounds p.length p c hc
    simp [List.isEmpty_iff, hb.1, hb.2]
  · have hpre := flatten_of_chunk_list_ordered (writeChunks_written_ordered ok (chunks64 p) 0)
    rw [hjoin] at hpre
    exact hpre
  · intro hdone
    rw [writeChunks_all_of_complete ok (chunks64 p) 0 hdone, hjoin]

theorem serial_chunk_write_witness :
    ((writeChunks (fun _ => true) (chunks64 p70) 0).2 = true)
      ∧ (writeChunks (fun _ => true) (chunks64 p70) 0).1.flatten = p70 :=
  ⟨by decide, (serial_chunk_write p70 (fun _ => true)).2.2.2.2.2 (by decide)⟩

/-! Occurrence lemmas for the character `x` (a character of `Tax`): apart
from the conditional tax line, the only characters `x` in a formatted
receipt come from the input strings. -/

theorem xFreeStr_iff (s : String) : xFreeStr s = true ↔ 'x' ∉ s.data := by
  simp only [xFreeStr, List.all_eq_true, bne_iff_ne, ne_eq]
  constructor
  · intro h hx
    exact h 'x' hx rfl
  · intro h c hc hceq
    exact h (hceq ▸ hc)

theorem x_not_mem_append {a b : String} (ha : 'x' ∉ a.data) (hb : 'x' ∉ b.data) :
    'x' ∉ (a ++ b).data := by
  intro h
  rw [String.data_append, List.mem_append] at h
  rcases h with h | h
  · exact ha h
  · exact hb h

theorem x_not_mem_strTake {s : String} (n : Nat) (h : 'x' ∉ s.data) :
    'x' ∉ (strTake n s).data :=
  fun hm => h (List.mem_of_mem_take hm)

theorem x_not_mem_strFitEnd {s : String} (w : Nat) (h : 'x' ∉ s.data) :
    'x' ∉ (strFitEnd w s).data := by
  intro hm
  have hmem := List.mem_of_mem_take hm
  rw [List.mem_append] at hmem
  rcases hmem with h1 | h1
  · exact h h1
  · exact absurd (List.eq_of_mem_replicate h1) (by decide)

theorem x_not_mem_strFitStart {s : String} (w : Nat) (h : 'x' ∉ s.data) :
    'x' ∉ (strFitStart w s).data := by
  intro hm
  have hmem := List.mem_of_mem_take hm
  rw [List.mem_append] at hmem
  rcases hmem with h1 | h1
  · exact absurd (List.eq_of_mem_replicate h1) (by decide)
  · exact h h1

theorem x_not_mem_natDigitsAux : ∀ fuel n : Nat, 'x' ∉ natDigitsAux fuel n := by
  intro fuel
  induction fuel with
  | zero => intro n; simp [natDigitsAux]
  | succ f ih =>
      intro n
      simp only [natDigitsAux]
      split
      · simp
      · intro h
        rw [List.mem_append, List.mem_singleton] at h
        rcases h with h | h
        · exact ih _ h
        · have h10 : n % 10 % 10 < 10 := Nat.mod_lt _ (by omega)
          have hdig : ∀ m, m < 10 → Char.ofNat (48 + m) ≠ 'x' := by decide
          exact hdig _ h10 h.symm

theorem x_not_mem_natRepr (n : Nat) : 'x' ∉ (natRepr n).data := by
  unfold natRepr
  split
  · decide
  · exact x_not_mem_natDigitsAux n n

theorem x_not_mem_intRepr (i : Int) : 'x' ∉ (intRepr i).data := by
  unfold intRepr
  split
  · exact x_not_mem_append (by decide) (x_not_mem_natRepr _)
  · exact x_not_mem_natRepr _

theorem x_not_mem_toFixed2 (m : Int) : 'x' ∉ (toFixed2 m).data := by
  unfold toFixed2
  exact x_not_mem_append
    (x_not_mem_append
      (x_not_mem_append
        (x_not_mem_append (by split <;> decide) (x_not_mem_natRepr _))
        (by decide))
      (by split <;> decide))
    (x_not_mem_natRepr _)

theorem x_not_mem_padLine {c1 c2 c3 c4 : String} (h1 : 'x' ∉ c1.data) (h2 : 'x' ∉ c2.data)
    (h3 : 'x' ∉ c3.data) (h4 : 'x' ∉ c4.data) : 'x' ∉ (padLine c1 c2 c3 c4).data := by
  unfold padLine
  exact x_not_mem_append
    (x_not_mem_append (x_not_mem_append (x_not_mem_strFitEnd 16 h1) (x_not_mem_strFitStart 4 h2))
      (x_not_mem_strFitStart 10 h3))
    (x_not_mem_strFitStart 10 h4)

theorem x_not_mem_itemRow {cur : String} {item : PrintItem} (hcur : 'x' ∉ cur.data)
    (hname : 'x' ∉ item.name.data) : 'x' ∉ (itemRow cur item).data := by
  unfold itemRow
  exact x_not_mem_append
    (x_not_mem_padLine (x_not_mem_strTake 20 hname) (x_not_mem_intRepr _)
      (x_not_mem_append hcur (x_not_mem_toFixed2 _))
      (x_not_mem_append hcur (x_not_mem_toFixed2 _)))
    (by decide)

theorem x_not_mem_optField (label : String) (v : Option String) (hl : 'x' ∉ label.data)
    (hv : xFreeOpt v = true) : 'x' ∉ (optField label v).data := by
  cases v with
  | none =>
      show 'x' ∉ ("" : String).data
      decide
  | some s =>
      have hv' : xFreeStr s = true := hv
      show 'x' ∉ (if s = "" then "" else label ++ s ++ LINE_FEED).data
      split
      · decide
      · exact x_not_mem_append (x_not_mem_append hl ((xFreeStr_iff s).mp hv')) (by decide)

theorem x_not_mem_itemsJoin (cur : String) (items : List PrintItem) (hcur : 'x' ∉ cur.data)
    (hitems : (items.all fun it => xFreeStr it.name) = true) :
    'x' ∉ (strJoin (items.map (itemRow cur))).data := by
  induction items with
  | nil =>
      show 'x' ∉ ("" : String).data
      decide
  | cons it rest ih =>
      rw [List.all_cons, Bool.and_eq_true] at hitems
      show 'x' ∉ (itemRow cur it ++ strJoin (rest.map (itemRow cur))).data
      exact x_not_mem_append (x_not_mem_itemRow hcur ((xFreeStr_iff _).mp hitems.1))
        (ih hitems.2)

theorem x_not_mem_receiptBeforeTax (now : String) (d : PrintData)
    (hnow : 'x' ∉ now.data) (hstore : 'x' ∉ d.storeName.data)
    (hcust : xFreeOpt d.customerName = true) (hphone : xFreeOpt d.customerPhone = true)
    (hpay : 'x' ∉ d.paymentMethod.data) (hcur : 'x' ∉ d.currency.data)
    (hitems : (d.items.all fun it => xFreeStr it.name) = true) :
    'x' ∉ (receiptBeforeTax now d).data := by
  unfold receiptBeforeTax
  repeat' apply x_not_mem_append
  all_goals first
    | decide
    | exact hnow
    | exact hstore
    | exact hpay
    | exact hcur
    | exact x_not_mem_optField _ _ (by decide) hcust
    | exact x_not_mem_optField _ _ (by decide) hphone
    | exact x_not_mem_itemsJoin _ _ hcur hitems
    | exact x_not_mem_toFixed2 _
    | exact x_not_mem_natRepr _
    | (split <;> decide)

theorem x_not_mem_receiptAfterTax (d : PrintData) (hcur : 'x' ∉ d.currency.data) :
    'x' ∉ (receiptAfterTax d).data := by
  unfold receiptAfterTax
  repeat' apply x_not_mem_append
  all_goals first
    | decide
    | exact hcur
    | exact x_not_mem_toFixed2 _
    | exact x_not_mem_natRepr _
    | (split <;> decide)

theorem x_not_mem_formatReceipt (now : String) (d : PrintData)
    (hp : d.taxPercentage ≤ 0) (hx : xFreeFields now d = true) :
    'x' ∉ (formatReceipt now d).data := by
  simp only [xFreeFields, Bool.and_eq_true] at hx
  obtain ⟨⟨⟨⟨⟨⟨hnow, hstore⟩, hcust⟩, hphone⟩, hpay⟩, hcur⟩, hitems⟩ := hx
  have hnotp : ¬ 0 < d.taxPercentage := by omega
  unfold formatReceipt
  rw [if_neg hnotp]
  refine x_not_mem_append (x_not_mem_append ?_ ?_) ?_
  · exact x_not_mem_receiptBeforeTax now d ((xFreeStr_iff _).mp hnow)
      ((xFreeStr_iff _).mp hstore) hcust hphone ((xFreeStr_iff _).mp hpay)
      ((xFreeStr_iff _).mp hcur) hitems
  · show 'x' ∉ ("" : String).data
    decide
  · exact x_not_mem_receiptAfterTax d ((xFreeStr_iff _).mp hcur)

/-- C5 (amended): the tax line is emitted if and only if
`taxPercentage > 0` — for positive `taxPercentage` the output contains the
tax-line head `Tax (`, and for `taxPercentage ≤ 0` the output contains no
`Tax` substring provided no input string (the injected date, store name,
customer fields, payment method, currency, item names) contains the
character `x`; an input field containing `Tax`, such as an item named
`Taxi Ride`, makes the substring appear even at zero tax. -/
theorem tax_line_iff (now : String) (d : PrintData) :
    (0 < d.taxPercentage → "Tax (".data <:+: (formatReceipt now d).data)
      ∧ (d.taxPercentage ≤ 0 → xFreeFields now d = true
          → ¬ "Tax".data <:+: (formatReceipt now d).data) := by
  constructor
  · intro hp
    refine ⟨(receiptBeforeTax now d).data,
      (intRepr d.taxPercentage ++ "%): " ++ d.currency ++ toFixed2 d.tax ++ LINE_FEED).data
        ++ (receiptAfterTax d).data, ?_⟩
    simp [formatReceipt, taxLine, hp, String.data_append, List.append_assoc]
  · intro hp hx hinf
    exact x_not_mem_formatReceipt now d hp hx (List.IsInfix.subset hinf (by decide))

set_option maxRecDepth 100000 in
theorem tax_line_iff_witness :
    (0 < dKrushnkamal.taxPercentage
        ∧ "Tax (".data <:+: (formatReceipt now0 dKrushnkamal).data)
      ∧ (dTaxFree.taxPercentage ≤ 0 ∧ xFreeFields now0 dTaxFree = true
        ∧ ¬ "Tax".data <:+: (formatReceipt now0 dTaxFree).data) :=
  ⟨⟨by decide, (tax_line_iff now0 dKrushnkamal).1 (by decide)⟩,
    ⟨by decide, by decide, (tax_line_iff now0 dTaxFree).2 (by decide) (by decide)⟩⟩

set_option maxRecDepth 100000 in
/-- C5 (counterexample): a receipt with `taxPercentage = 0` whose single
item is named `Taxi Ride` formats to output that does contain the
substring `Tax` — the claim that zero-tax output never contains `Tax`
fails on such inputs. -/
theorem tax_substring_despite_zero_tax :
    dTaxi.taxPercentage = 0
      ∧ "Tax".data <:+: (formatReceipt now0 dTaxi).data :=
  ⟨rfl, by decide⟩
